import Mathlib

/-!
Verification development for the `bulletin_monitor` repository
(`app.py`, `config.py`, `ssh_utils.py`).

The Python source is shallowly embedded: pure helpers become Lean
functions over `List Char` / `String`, the stateful SSH client becomes a
small record of liveness flags together with explicit outcome values for
remote effects, and the Flask request pipeline becomes a function from
those inputs to a structured response value.  All text processing is
ASCII, matching the keyword lists and date formats used by the source.
-/

namespace BulletinMonitor

/-! ## Basic list and string utilities

Python string primitives (`in`, `startswith`, `upper`, `strip`,
`splitlines`, `join`) are embedded as structurally recursive functions
over `List Char` so that every definition evaluates by kernel reduction.
-/

/-- `pfx a b` is Python-style "b startswith a" on character lists. -/
def pfx : List Char → List Char → Bool
  | [], _ => true
  | _ :: _, [] => false
  | a :: as, b :: bs => a = b && pfx as bs

/-- `containsSub needle hay` is Python `needle in hay` (substring test). -/
def containsSub (needle : List Char) : List Char → Bool
  | [] => pfx needle []
  | c :: rest => pfx needle (c :: rest) || containsSub needle rest

/-- Python `str.upper()` restricted to ASCII, as used by `parse_log_status`. -/
def upperChars (s : String) : List Char :=
  s.data.map Char.toUpper

/-- Split a character list at newline characters (helper for `splitNl`). -/
def splitNlAux (cur : List Char) : List Char → List (List Char)
  | [] => [cur.reverse]
  | c :: rest =>
    if c = '\n' then cur.reverse :: splitNlAux [] rest
    else splitNlAux (c :: cur) rest

/-- Python `str.splitlines()` for `\n`-separated text: a trailing
terminator does not produce a final empty line, and the empty string
yields no lines. -/
def splitNl (cs : List Char) : List (List Char) :=
  let parts := splitNlAux [] cs
  if parts.getLast? = some [] then parts.dropLast else parts

/-- Python `"\n".join(lines)`. -/
def joinNl : List (List Char) → List Char
  | [] => []
  | [l] => l
  | l :: ls => l ++ '\n' :: joinNl ls

/-- Whitespace characters removed by Python `str.strip()` (ASCII subset). -/
def pyIsSpace (c : Char) : Bool :=
  c = ' ' || c = '\t' || c = '\n' || c = '\r' || c = '\x0b' || c = '\x0c'

/-- Python `str.strip()`. -/
def stripStr (s : String) : String :=
  String.mk (((s.data.dropWhile pyIsSpace).reverse.dropWhile pyIsSpace).reverse)

/-! ## Lemmas about prefixes and substrings -/

theorem pfx_trans {a b c : List Char} (hab : pfx a b = true) (hbc : pfx b c = true) :
    pfx a c = true := by
  induction a generalizing b c with
  | nil => rfl
  | cons x xs ih =>
    cases b with
    | nil => simp [pfx] at hab
    | cons y ys =>
      cases c with
      | nil => simp [pfx] at hbc
      | cons z zs =>
        simp only [pfx, Bool.and_eq_true, decide_eq_true_eq] at hab hbc ⊢
        exact ⟨hab.1.trans hbc.1, ih hab.2 hbc.2⟩

theorem containsSub_of_pfx {a b h : List Char} (hab : pfx a b = true)
    (hbh : containsSub b h = true) : containsSub a h = true := by
  induction h with
  | nil =>
    cases b with
    | nil =>
      cases a with
      | nil => rfl
      | cons x xs => simp [pfx] at hab
    | cons y ys => simp [containsSub, pfx] at hbh
  | cons c rest ih =>
    simp only [containsSub, Bool.or_eq_true] at hbh ⊢
    rcases hbh with hp | hr
    · exact Or.inl (pfx_trans hab hp)
    · exact Or.inr (ih hr)

theorem pfx_map (f : Char → Char) {a b : List Char} (h : pfx a b = true) :
    pfx (a.map f) (b.map f) = true := by
  induction a generalizing b with
  | nil => rfl
  | cons x xs ih =>
    cases b with
    | nil => simp [pfx] at h
    | cons y ys =>
      simp only [pfx, Bool.and_eq_true, decide_eq_true_eq] at h
      simp only [List.map, pfx, Bool.and_eq_true, decide_eq_true_eq]
      exact ⟨by rw [h.1], ih h.2⟩

theorem containsSub_map (f : Char → Char) {n h : List Char}
    (hc : containsSub n h = true) : containsSub (n.map f) (h.map f) = true := by
  induction h with
  | nil =>
    cases n with
    | nil => rfl
    | cons x xs => simp [containsSub, pfx] at hc
  | cons c rest ih =>
    simp only [containsSub, Bool.or_eq_true] at hc
    simp only [List.map, containsSub, Bool.or_eq_true]
    rcases hc with hp | hr
    · exact Or.inl (by simpa using pfx_map f hp)
    · exact Or.inr (ih hr)

/-! ## Calendar model

`datetime.date` / `datetime.datetime` values, restricted to what the
source uses: field access, `strftime` with zero-padded numeric fields,
validity of a parsed date (`strptime` raises `ValueError` outside these
ranges), chronological comparison, and `timedelta(days=1)` subtraction.
-/

structure SimpleDate where
  year : Nat
  month : Nat
  day : Nat
deriving DecidableEq, Repr

structure DateTime where
  year : Nat
  month : Nat
  day : Nat
  hour : Nat
  minute : Nat
  second : Nat
deriving DecidableEq, Repr

def DateTime.toDate (d : DateTime) : SimpleDate :=
  ⟨d.year, d.month, d.day⟩

def isLeap (y : Nat) : Bool :=
  (y % 4 = 0 && y % 100 ≠ 0) || y % 400 = 0

def daysInMonth (y m : Nat) : Nat :=
  if m = 2 then (if isLeap y then 29 else 28)
  else if m = 4 || m = 6 || m = 9 || m = 11 then 30
  else 31

/-- The `(year, month, day)` combinations accepted by
`datetime.strptime(_, "%Y-%m-%d")`: `datetime.MINYEAR` is 1, months are
1..12 and days are 1..`daysInMonth`. -/
def validDate (y m d : Nat) : Bool :=
  1 ≤ y && 1 ≤ m && m ≤ 12 && 1 ≤ d && d ≤ daysInMonth y m

/-- Numeric key giving the chronological order of calendar dates. -/
def dateKeyN (y m d : Nat) : Nat :=
  y * 10000 + m * 100 + d

def dateKey (d : SimpleDate) : Nat :=
  dateKeyN d.year d.month d.day

/-- `date - timedelta(days=1)` on the calendar-date part. -/
def prevDay (d : SimpleDate) : SimpleDate :=
  if d.day > 1 then ⟨d.year, d.month, d.day - 1⟩
  else if d.month > 1 then ⟨d.year, d.month - 1, daysInMonth d.year (d.month - 1)⟩
  else ⟨d.year - 1, 12, 31⟩

/-- Zero-padded two-digit field, as produced by `strftime("%m")` etc. -/
def pad2 (n : Nat) : String :=
  if n < 10 then "0" ++ Nat.repr n else Nat.repr n

/-- Zero-padded four-digit field, as produced by `strftime("%Y")`. -/
def pad4 (n : Nat) : String :=
  if n < 10 then "000" ++ Nat.repr n
  else if n < 100 then "00" ++ Nat.repr n
  else if n < 1000 then "0" ++ Nat.repr n
  else Nat.repr n

/-- `strftime("%Y-%m-%d")`. -/
def dateToStr (d : SimpleDate) : String :=
  pad4 d.year ++ "-" ++ pad2 d.month ++ "-" ++ pad2 d.day

/-! ## Keyword configuration (`config.py`) -/

def SUCCESS_KEYWORDS : List String := ["SUCCESS", "COMPLETED", "FINISHED"]

def ERROR_KEYWORDS : List String := ["ERROR", "FAILURE", "FAILED", "EXCEPTION"]

def WARNING_KEYWORDS : List String := ["WARNING", "WARN"]

def CRITICAL_KEYWORDS : List String := ["CRITICAL", "FATAL", "SEVERE"]

/-! ## Status values

Every status string the source assigns, as a closed enumeration. -/

inductive LogStatus where
  | CRITICAL
  | FAILED
  | SUCCESS
  | WARNING
  | UNKNOWN
  | SSH_ERROR
  | PENDING
  | NO_RECENT_RUN
deriving DecidableEq, Repr

/-! ## Log-status classifier (`app.py`, `parse_log_status`) -/

/-- The fetch-error marker substring that `parse_log_status` tests for. -/
def fetchErrorMarker : String := "Error fetching log file"

/-- `kws` has a member occurring as a substring of `up`
(`any(kw in log_content_upper for kw in KWS)`). -/
def containsKW (up : List Char) (kws : List String) : Bool :=
  kws.any (fun kw => containsSub kw.data up)

/-- `app.py` `parse_log_status(log_content)`: returns the status together
with the `has_warnings_notification` flag. -/
def parse_log_status (log_content : String) : LogStatus × Bool :=
  if log_content.data = [] ∨ containsSub fetchErrorMarker.data log_content.data = true then
    (LogStatus.UNKNOWN, false)
  else
    let up := upperChars log_content
    let is_critical := containsKW up CRITICAL_KEYWORDS
    let is_failed := containsKW up ERROR_KEYWORDS
    let is_success := containsKW up SUCCESS_KEYWORDS
    let is_warning := containsKW up WARNING_KEYWORDS
    if is_critical then (LogStatus.CRITICAL, false)
    else if is_failed then (LogStatus.FAILED, false)
    else if is_success then (LogStatus.SUCCESS, is_warning)
    else if is_warning then (LogStatus.WARNING, false)
    else (LogStatus.UNKNOWN, false)

/-! ## Dynamic path resolution (`app.py`, `_resolve_dynamic_path`)

`template_string.format(**date_vars)` is embedded as a scanner over the
template characters: literal text is copied, `\x7b name \x7d`
placeholders are looked up in the date table, doubled braces are the
usual escapes, and every formatting failure (unknown key, unmatched
brace) produces `none` — matching the `except` handlers of
`_resolve_dynamic_path`, which turn any such error into `None`.
Format specifications (`:`-suffixed fields) are not used by any
configured template and are treated like any other unknown key. -/

/-- The `date_vars` lookup table built by `_resolve_dynamic_path`. -/
def dateVars (d : DateTime) (k : String) : Option String :=
  if k = "year" then some (pad4 d.year)
  else if k = "year_short" then some (pad2 (d.year % 100))
  else if k = "month" then some (pad2 d.month)
  else if k = "day" then some (pad2 d.day)
  else if k = "Hour" then some (pad2 d.hour)
  else if k = "hour" then some (pad2 d.hour)
  else if k = "Minute" then some (pad2 d.minute)
  else if k = "minute" then some (pad2 d.minute)
  else if k = "Second" then some (pad2 d.second)
  else if k = "second" then some (pad2 d.second)
  else if k = "DD" then some (pad2 d.day)
  else if k = "MM" then some (pad2 d.month)
  else if k = "YYYY" then some (pad4 d.year)
  else if k = "Day" then some (pad2 d.day)
  else if k = "Month" then some (pad2 d.month)
  else if k = "Year" then some (pad4 d.year)
  else none

/-- Scanner for `str.format`.  `mode = none` copies literal text;
`mode = some acc` is inside a placeholder whose name characters so far
are `acc` (reversed). -/
def fmtGo (vars : String → Option String) (mode : Option (List Char)) :
    List Char → Option (List Char)
  | [] =>
    match mode with
    | none => some []
    | some _ => none
  | [c] =>
    match mode with
    | some acc =>
      if c = '\x7d' then
        match vars (String.mk acc.reverse) with
        | none => none
        | some v => (fmtGo vars none []).map (fun t => v.data ++ t)
      else fmtGo vars (some (c :: acc)) []
    | none =>
      if c = '\x7b' then none
      else if c = '\x7d' then none
      else (fmtGo vars none []).map (fun t => c :: t)
  | c :: c2 :: rest2 =>
    match mode with
    | some acc =>
      if c = '\x7d' then
        match vars (String.mk acc.reverse) with
        | none => none
        | some v => (fmtGo vars none (c2 :: rest2)).map (fun t => v.data ++ t)
      else fmtGo vars (some (c :: acc)) (c2 :: rest2)
    | none =>
      if c = '\x7b' then
        (if c2 = '\x7b' then (fmtGo vars none rest2).map (fun t => '\x7b' :: t)
         else fmtGo vars (some []) (c2 :: rest2))
      else if c = '\x7d' then
        (if c2 = '\x7d' then (fmtGo vars none rest2).map (fun t => '\x7d' :: t)
         else none)
      else (fmtGo vars none (c2 :: rest2)).map (fun t => c :: t)

/-- The placeholder names a template references, scanned exactly like
`fmtGo`; `none` when the template is malformed. -/
def keysGo (mode : Option (List Char)) : List Char → Option (List String)
  | [] =>
    match mode with
    | none => some []
    | some _ => none
  | [c] =>
    match mode with
    | some acc =>
      if c = '\x7d' then
        (keysGo none []).map (fun ks => String.mk acc.reverse :: ks)
      else keysGo (some (c :: acc)) []
    | none =>
      if c = '\x7b' then none
      else if c = '\x7d' then none
      else keysGo none []
  | c :: c2 :: rest2 =>
    match mode with
    | some acc =>
      if c = '\x7d' then
        (keysGo none (c2 :: rest2)).map (fun ks => String.mk acc.reverse :: ks)
      else keysGo (some (c :: acc)) (c2 :: rest2)
    | none =>
      if c = '\x7b' then
        (if c2 = '\x7b' then keysGo none rest2
         else keysGo (some []) (c2 :: rest2))
      else if c = '\x7d' then
        (if c2 = '\x7d' then keysGo none rest2
         else none)
      else keysGo none (c2 :: rest2)

def templateKeys (template : String) : Option (List String) :=
  keysGo none template.data

/-- `app.py` `_resolve_dynamic_path(template_string, date)`: `None` on
any formatting error, otherwise the substituted path. -/
def _resolve_dynamic_path (template : String) (d : DateTime) : Option String :=
  (fmtGo (dateVars d) none template.data).map String.mk

/-! ## SSH client model (`ssh_utils.py`, `BQRMSshClient`)

The paramiko-level state that `is_active` inspects: the internal
`_is_connected` flag, whether `self.client.get_transport()` is non-None,
and whether that transport reports active.  The SFTP file-transfer
sub-channel used by `file_exists` (see below) carries its own liveness
flag, which lets theorems speak about it. -/

structure SshState where
  isConnected : Bool
  transportPresent : Bool
  transportActive : Bool
  sftpActive : Bool
deriving DecidableEq, Repr

/-- `ssh_utils.py` `BQRMSshClient.is_active`: a total boolean function of
the session state (it cannot raise), combining the internal flag with the
transport check exactly as the source line does. -/
def is_active (s : SshState) : Bool :=
  s.isConnected && s.transportPresent && s.transportActive

/-- What the remote side of `exec_command` did: the command completed
with an exit status and raw stdout/stderr streams, or the paramiko call
raised. -/
inductive ExecOutcome where
  | completed (exitStatus : Nat) (stdout stderr : String)
  | raised (msg : String)
deriving DecidableEq, Repr

/-- The `try` body of `execute_command` once a connection is available:
stdout and stderr are read, decoded and stripped; a nonzero exit status
yields `success = False` with both streams still returned; an exception
yields `(False, "", str(e))`. -/
def runExecOutcome : ExecOutcome → Bool × String × String
  | ExecOutcome.completed exitStatus out err =>
    if exitStatus ≠ 0 then (false, stripStr out, stripStr err)
    else (true, stripStr out, stripStr err)
  | ExecOutcome.raised msg => (false, "", msg)

/-- `ssh_utils.py` `BQRMSshClient.execute_command`: when the session is
inactive it attempts exactly one `_connect`; a failed reconnect returns
the structured error tuple without running the command. -/
def execute_command (selfActive : Bool) (reconnect : Except String Unit)
    (outcome : ExecOutcome) : Bool × String × String :=
  if selfActive = false then
    match reconnect with
    | Except.error e =>
      (false, "", "SSH connection inactive and failed to re-connect: " ++ e)
    | Except.ok _ => runExecOutcome outcome
  else runExecOutcome outcome

/-- Result of the SFTP metadata query (`stat`) behind `file_exists`: the
file is there, the server reports it missing, or the query failed with
some other error (dead channel, timeout, permission problem, ...). -/
inductive StatOutcome where
  | found
  | missing
  | errored (msg : String)
deriving DecidableEq, Repr

/-- Modelled from the spec: `BQRMSshClient.file_exists` is called from
`app.py` (product availability and the download endpoint) but its
definition is absent from `ssh_utils.py`.  Per the spec it issues a
metadata query over the file-transfer sub-channel and returns `False`
both when the file is absent and when any error occurs; errors are
logged, never surfaced. -/
def file_exists (o : StatOutcome) : Bool :=
  match o with
  | StatOutcome.found => true
  | StatOutcome.missing => false
  | StatOutcome.errored _ => false

/-! ## Date-stamped log parsing (`app.py`) -/

/-- `re.match(r'^(\d\x7b4\x7d-\d\x7b2\x7d-\d\x7b2\x7d)', line)`: a purely
lexical match of a leading `YYYY-MM-DD`, returning the numeric fields. -/
def lexDate : List Char → Option (Nat × Nat × Nat)
  | y1 :: y2 :: y3 :: y4 :: a :: m1 :: m2 :: b :: d1 :: d2 :: _ =>
    if y1.isDigit && y2.isDigit && y3.isDigit && y4.isDigit && a = '-' &&
       m1.isDigit && m2.isDigit && b = '-' && d1.isDigit && d2.isDigit then
      some (((y1.toNat - 48) * 1000 + (y2.toNat - 48) * 100 +
               (y3.toNat - 48) * 10 + (y4.toNat - 48)),
            ((m1.toNat - 48) * 10 + (m2.toNat - 48)),
            ((d1.toNat - 48) * 10 + (d2.toNat - 48)))
    else none
  | _ => none

/-- A line whose head lexically matches the date pattern but whose date
is rejected by `strptime` (the `except ValueError` path). -/
def badDated (l : List Char) : Bool :=
  match lexDate l with
  | some (y, m, d) => !validDate y m d
  | none => false

/-- The filtering loop of `get_log_content_for_date_range`: dated lines
are kept when their date parses and falls inside `[startD, endD]`;
lexically-dated lines whose date fails `strptime` hit `except
ValueError: pass`; undated lines are kept once collection has started. -/
def filterLoop (startD endD : SimpleDate) (acc : List (List Char)) :
    List (List Char) → List (List Char)
  | [] => acc
  | line :: rest =>
    match lexDate line with
    | some (y, m, d) =>
      if validDate y m d then
        if dateKey startD ≤ dateKeyN y m d && dateKeyN y m d ≤ dateKey endD then
          filterLoop startD endD (acc ++ [line]) rest
        else filterLoop startD endD acc rest
      else filterLoop startD endD acc rest
    | none =>
      if acc.isEmpty then filterLoop startD endD acc rest
      else filterLoop startD endD (acc ++ [line]) rest

/-- `re.match(r'^\d\x7b4\x7d-\d\x7b2\x7d-\d\x7b2\x7d \d\x7b2\x7d:\d\x7b2\x7d:\d\x7b2\x7d', line)`:
lexical match of a leading full timestamp; returns the 19 matched
characters together with the numeric fields. -/
def lexTs : List Char → Option (List Char × Nat × Nat × Nat × Nat × Nat × Nat)
  | y1 :: y2 :: y3 :: y4 :: a :: m1 :: m2 :: b :: d1 :: d2 :: sp ::
      h1 :: h2 :: c1 :: n1 :: n2 :: c2 :: s1 :: s2 :: _ =>
    if y1.isDigit && y2.isDigit && y3.isDigit && y4.isDigit && a = '-' &&
       m1.isDigit && m2.isDigit && b = '-' && d1.isDigit && d2.isDigit &&
       sp = ' ' && h1.isDigit && h2.isDigit && c1 = ':' &&
       n1.isDigit && n2.isDigit && c2 = ':' && s1.isDigit && s2.isDigit then
      some ([y1, y2, y3, y4, a, m1, m2, b, d1, d2, sp, h1, h2, c1, n1, n2, c2, s1, s2],
            ((y1.toNat - 48) * 1000 + (y2.toNat - 48) * 100 +
               (y3.toNat - 48) * 10 + (y4.toNat - 48)),
            ((m1.toNat - 48) * 10 + (m2.toNat - 48)),
            ((d1.toNat - 48) * 10 + (d2.toNat - 48)),
            ((h1.toNat - 48) * 10 + (h2.toNat - 48)),
            ((n1.toNat - 48) * 10 + (n2.toNat - 48)),
            ((s1.toNat - 48) * 10 + (s2.toNat - 48)))
    else none
  | _ => none

/-- The timestamps accepted by `datetime.strptime(_, "%Y-%m-%d %H:%M:%S")`. -/
def validTs (y m d h n s : Nat) : Bool :=
  validDate y m d && h ≤ 23 && n ≤ 59 && s ≤ 59

/-- Numeric key giving the chronological order of timestamps
(`current_dt > latest_dt`). -/
def tsKey (y m d h n s : Nat) : Nat :=
  ((dateKeyN y m d * 100 + h) * 100 + n) * 100 + s

/-- The loop of `_get_latest_timestamp_from_log_content`, iterating over
the reversed lines and keeping the strictly latest valid timestamp that
passes the date filter. -/
def latestTsGo (dateFilter : Option SimpleDate) (best : Option (Nat × List Char)) :
    List (List Char) → Option (Nat × List Char)
  | [] => best
  | line :: rest =>
    match lexTs line with
    | some (matched, y, m, d, h, n, s) =>
      if validTs y m d h n s then
        if dateFilter.isSome && dateFilter ≠ some ⟨y, m, d⟩ then
          latestTsGo dateFilter best rest
        else
          match best with
          | none => latestTsGo dateFilter (some (tsKey y m d h n s, matched)) rest
          | some (bk, bs) =>
            if bk < tsKey y m d h n s then
              latestTsGo dateFilter (some (tsKey y m d h n s, matched)) rest
            else latestTsGo dateFilter (some (bk, bs)) rest
      else latestTsGo dateFilter best rest
    | none => latestTsGo dateFilter best rest

/-- `app.py` `_get_latest_timestamp_from_log_content(log_content,
date_filter)`: the 19-character string of the latest valid timestamp in
the content, optionally restricted to one calendar date, or `None`. -/
def _get_latest_timestamp_from_log_content (content : String)
    (dateFilter : Option SimpleDate) : Option (List Char) :=
  (latestTsGo dateFilter none (splitNl content.data).reverse).map Prod.snd

/-! ## Per-bulletin configuration and request environment (`app.py`) -/

structure ProductTemplate where
  name : String
  template : String
deriving DecidableEq, Repr

structure BulletinConfig where
  id : String
  name : String
  log_path : String
  rerun_command : String
  product_paths : List ProductTemplate
deriving DecidableEq, Repr

/-- The process-wide context a status request runs against: whether
`bqrm_ssh_client` exists and `is_active()` holds (one flag, since the
source always tests `not bqrm_ssh_client or not ...is_active()`), the
current wall-clock datetime, and the remote side as oracles: the result
tuple of `execute_command` per command string and the SFTP stat outcome
per path. -/
structure Env where
  active : Bool
  now : DateTime
  runCommand : String → Bool × String × String
  statOutcome : String → StatOutcome

/-- `LINES_TO_FETCH_FOR_DAILY_CHECK` in `app.py`. -/
def LINES_TO_FETCH_FOR_DAILY_CHECK : Nat := 1000

/-- `app.py` `get_log_content_for_date_range(log_path, start_date,
end_date)`: an `SSH_ERROR:` sentinel when the client is down, an error
message when the `tail` command fails, otherwise the date-filtered
lines joined by newlines. -/
def get_log_content_for_date_range (env : Env) (log_path : String)
    (startD endD : SimpleDate) : String :=
  if env.active = false then "SSH_ERROR: Backend SSH client inactive."
  else
    let r := env.runCommand ("tail -n " ++ Nat.repr LINES_TO_FETCH_FOR_DAILY_CHECK ++ " " ++ log_path)
    if r.1 = false then
      "Error fetching log file \x27" ++ log_path ++ "\x27: " ++ r.2.2
    else
      String.mk (joinNl (filterLoop startD endD [] (splitNl r.2.1.data)))

/-- The per-day bucketing loop in `get_bulletin_details_summary`: a line
is added to the bucket when it starts with the day string, or when the
bucket is already open and the line has no leading date marker. -/
def bucketLoop (dayStr : List Char) (acc : List (List Char)) :
    List (List Char) → List (List Char)
  | [] => acc
  | line :: rest =>
    if pfx dayStr line then bucketLoop dayStr (acc ++ [line]) rest
    else if !acc.isEmpty && (lexDate line).isNone then
      bucketLoop dayStr (acc ++ [line]) rest
    else bucketLoop dayStr acc rest

/-- Today's bucket of the fetched content, joined back to text. -/
def todayBucketContent (todayD : SimpleDate) (content : String) : String :=
  String.mk (joinNl (bucketLoop (dateToStr todayD).data [] (splitNl content.data)))

/-- Yesterday's bucket of the fetched content, joined back to text. -/
def yesterdayBucketContent (todayD : SimpleDate) (content : String) : String :=
  String.mk (joinNl (bucketLoop (dateToStr (prevDay todayD)).data [] (splitNl content.data)))

/-- The status/last-run/warnings triple computed by
`get_bulletin_details_summary`. -/
structure RunResolution where
  status : LogStatus
  lastRun : String
  hasWarnings : Bool
deriving DecidableEq, Repr

/-- Steps 1-2 of `get_bulletin_details_summary` (`app.py` lines 241-295):
given today's date and the content fetched for the two-day range,
determine status, last-run text and the warnings flag.  An `SSH_ERROR`
substring in the content short-circuits; otherwise the latest valid
timestamp is sought in today's bucket, then in yesterday's bucket
(`PENDING`), else `NO_RECENT_RUN`. -/
def resolveRun (todayD : SimpleDate) (content : String) : RunResolution :=
  if containsSub "SSH_ERROR".data content.data then
    ⟨LogStatus.SSH_ERROR, "N/A (Log fetch error)", false⟩
  else
    match _get_latest_timestamp_from_log_content (todayBucketContent todayD content) (some todayD) with
    | some ts =>
      let p := parse_log_status (todayBucketContent todayD content)
      ⟨p.1, String.mk ts, p.2⟩
    | none =>
      match _get_latest_timestamp_from_log_content (yesterdayBucketContent todayD content) (some (prevDay todayD)) with
      | some ts =>
        ⟨LogStatus.PENDING, "N/A (Last run: " ++ String.mk ts ++ " - Yesterday)", false⟩
      | none =>
        ⟨LogStatus.NO_RECENT_RUN, "N/A (No recent runs today or yesterday)", false⟩

structure ProductInfo where
  name : String
  available : Bool
  remote_path : Option String
deriving DecidableEq, Repr

/-- Step 3 of `get_bulletin_details_summary`: resolve the product path
for today and check existence via `file_exists`; an unresolvable
template yields a null path and `available = False`. -/
def productInfoFor (env : Env) (p : ProductTemplate) : ProductInfo :=
  match _resolve_dynamic_path p.template env.now with
  | some rp => ⟨p.name, file_exists (env.statOutcome rp), some rp⟩
  | none => ⟨p.name, false, none⟩

/-- One entry of the `/api/bulletins` response. -/
structure RunRecord where
  id : String
  name : String
  status : LogStatus
  last_run : String
  has_warnings : Bool
  product_info : List ProductInfo
deriving DecidableEq, Repr

/-- `app.py` `get_bulletin_details_summary(bulletin_config)`: when the
client is inactive every product is reported unavailable but its path is
still resolved for display; otherwise the two-day log content is fetched
and resolved, and each product is stat-checked. -/
def get_bulletin_details_summary (env : Env) (b : BulletinConfig) : RunRecord :=
  let todayD := env.now.toDate
  if env.active = false then
    ⟨b.id, b.name, LogStatus.SSH_ERROR, "N/A", false,
      b.product_paths.map (fun p =>
        ⟨p.name, false, _resolve_dynamic_path p.template env.now⟩)⟩
  else
    let content := get_log_content_for_date_range env b.log_path (prevDay todayD) todayD
    let r := resolveRun todayD content
    ⟨b.id, b.name, r.status, r.lastRun, r.hasWarnings,
      b.product_paths.map (fun p => productInfoFor env p)⟩

/-- A response of the Flask API layer for the endpoints modelled here:
an HTTP-success JSON payload or a 503 with a message and status tag. -/
inductive ApiResponse where
  | ok (records : List RunRecord)
  | serviceUnavailable (message : String) (status : String)
deriving DecidableEq, Repr

/-- `app.py` `get_all_bulletins_status`: one record per configured
bulletin, always an HTTP-success payload. -/
def get_all_bulletins_status (env : Env) (bulletins : List BulletinConfig) : ApiResponse :=
  ApiResponse.ok (bulletins.map (get_bulletin_details_summary env))

/-- The `/api/bulletins` request pipeline: the `before_request` guard
`check_global_ssh_client_status` runs first.  `clientPresent` is whether
`bqrm_ssh_client` is non-None, `activeAtArrival` its `is_active()` at
guard time, `reconnectOk` whether the guard's `_connect()` attempt left
the client active.  Only when the guard passes does
`get_all_bulletins_status` run, against the session state `env.active`
observed at summary time. -/
def handle_api_bulletins (clientPresent activeAtArrival reconnectOk : Bool)
    (env : Env) (bulletins : List BulletinConfig) : ApiResponse :=
  if clientPresent = false then
    ApiResponse.serviceUnavailable
      "Backend SSH client failed to initialize at startup. Please check server logs."
      "SYSTEM_ERROR"
  else if activeAtArrival = false then
    if reconnectOk then get_all_bulletins_status env bulletins
    else
      ApiResponse.serviceUnavailable
        "Backend SSH client connection is currently inactive. Please check server logs."
        "SYSTEM_ERROR"
  else get_all_bulletins_status env bulletins

/-! ## Shared helper lemmas for the claim theorems -/

/-- A nonempty keyword never occurs in empty text. -/
theorem containsKW_nil_success : containsKW [] SUCCESS_KEYWORDS = false := by decide

/-- If the fetch-error marker occurs in the text, then `ERROR` occurs in
the uppercased text, so the error-keyword test fires. -/
theorem errorKW_of_marker {text : String}
    (hm : containsSub fetchErrorMarker.data text.data = true) :
    containsKW (upperChars text) ERROR_KEYWORDS = true := by
  have hup : containsSub (fetchErrorMarker.data.map Char.toUpper) (upperChars text) = true :=
    containsSub_map Char.toUpper hm
  have herr : containsSub "ERROR".data (upperChars text) = true :=
    containsSub_of_pfx (a := "ERROR".data) (by decide) hup
  simp only [containsKW, ERROR_KEYWORDS, List.any_cons, Bool.or_eq_true]
  exact Or.inl herr

end BulletinMonitor

namespace BulletinMonitor

/-! ## Claim theorems -/

/-- C2: `file_exists` returns `false` both when the file is absent and
when any error occurs during the query, and the two cases are
indistinguishable to the caller; being a total `Bool`-valued function it
never surfaces an error condition. -/
theorem claim_C2_file_exists :
    file_exists StatOutcome.missing = false
    ∧ (∀ msg : String, file_exists (StatOutcome.errored msg) = false)
    ∧ (∀ msg : String,
        file_exists (StatOutcome.errored msg) = file_exists StatOutcome.missing) :=
  ⟨rfl, fun _ => rfl, fun _ => rfl⟩

/-- C9 counterexample: a session state whose transport is live but whose
file-transfer sub-channel is dead still makes `is_active` return `true`,
so the liveness check does not require the sub-channel to be live. -/
theorem claim_C9_counterexample :
    is_active ⟨true, true, true, false⟩ = true
    ∧ (SshState.mk true true true false).sftpActive = false := by
  decide

/-- C9 amended: `is_active` returns `true` iff the internal connected
flag is set, a transport is present, and the transport reports active;
the file-transfer sub-channel is never consulted.  As a total function
into `Bool` it never throws. -/
theorem claim_C9_is_active_amended (s : SshState) :
    (is_active s = true ↔
      s.isConnected = true ∧ s.transportPresent = true ∧ s.transportActive = true)
    ∧ (∀ b : Bool, is_active { s with sftpActive := b } = is_active s) := by
  constructor
  · simp [is_active, Bool.and_eq_true, and_assoc]
  · intro b
    rfl

/-- C8: a remote execution that completes with a nonzero exit code is
reported as `success = false` with the (stripped) stderr populated and
the (stripped) stdout preserved in the tuple, provided the command ran
at all (the session was active, or the single reconnect succeeded). -/
theorem claim_C8_execute_command_nonzero_exit (selfActive : Bool)
    (reconnect : Except String Unit) (exitStatus : Nat) (out err : String)
    (hec : exitStatus ≠ 0)
    (hrun : selfActive = true ∨ reconnect = Except.ok ()) :
    execute_command selfActive reconnect (ExecOutcome.completed exitStatus out err)
      = (false, stripStr out, stripStr err) := by
  have hout : runExecOutcome (ExecOutcome.completed exitStatus out err)
      = (false, stripStr out, stripStr err) := by
    simp [runExecOutcome, hec]
  cases selfActive with
  | true => simpa [execute_command] using hout
  | false =>
    rcases hrun with h | h
    · exact absurd h (by decide)
    · subst h
      simpa [execute_command] using hout

/-- C8 witness: a concrete failing command with nonempty partial stdout. -/
theorem claim_C8_witness :
    execute_command true (Except.ok ())
        (ExecOutcome.completed 127 " partial output " "command not found")
      = (false, "partial output", "command not found") :=
  claim_C8_execute_command_nonzero_exit true (Except.ok ()) 127
    " partial output " "command not found" (by decide) (Or.inl rfl)

/-- C10: the classifier sets `has_warnings` only on a `SUCCESS`
classification — for every other returned status the flag is `false`. -/
theorem claim_C10_warnings_flag_only_with_success (text : String)
    (h : (parse_log_status text).1 ≠ LogStatus.SUCCESS) :
    (parse_log_status text).2 = false := by
  unfold parse_log_status at h ⊢
  by_cases h0 : text.data = [] ∨ containsSub fetchErrorMarker.data text.data = true
  · rw [if_pos h0]
  · rw [if_neg h0] at h ⊢
    simp only at h ⊢
    by_cases hc : containsKW (upperChars text) CRITICAL_KEYWORDS = true
    · rw [if_pos hc]
    · rw [if_neg hc] at h ⊢
      by_cases hf : containsKW (upperChars text) ERROR_KEYWORDS = true
      · rw [if_pos hf]
      · rw [if_neg hf] at h ⊢
        by_cases hs : containsKW (upperChars text) SUCCESS_KEYWORDS = true
        · rw [if_pos hs] at h
          exact absurd rfl h
        · rw [if_neg hs] at h ⊢
          by_cases hw : containsKW (upperChars text) WARNING_KEYWORDS = true
          · rw [if_pos hw]
          · rw [if_neg hw]

/-- C10 witness: text classified `FAILED` carries `has_warnings = false`. -/
theorem claim_C10_witness :
    (parse_log_status "ERROR with a warning").2 = false :=
  claim_C10_warnings_flag_only_with_success "ERROR with a warning" (by decide)

/-- C4: any critical keyword occurring case-insensitively in the text
forces a `CRITICAL` classification regardless of co-occurring keywords,
except that empty text or text containing the fetch-error marker is
classified `UNKNOWN` with `has_warnings = false` before keywords are
even examined. -/
theorem claim_C4_critical_priority (text : String) :
    ((text.data = [] ∨ containsSub fetchErrorMarker.data text.data = true) →
      parse_log_status text = (LogStatus.UNKNOWN, false))
    ∧ (containsKW (upperChars text) CRITICAL_KEYWORDS = true →
       text.data ≠ [] → containsSub fetchErrorMarker.data text.data = false →
       (parse_log_status text).1 = LogStatus.CRITICAL) := by
  constructor
  · intro h0
    unfold parse_log_status
    rw [if_pos h0]
  · intro hc hne hm
    have h0 : ¬(text.data = [] ∨ containsSub fetchErrorMarker.data text.data = true) := by
      rintro (h | h)
      · exact hne h
      · rw [hm] at h
        exact absurd h (by decide)
    unfold parse_log_status
    rw [if_neg h0]
    simp only
    rw [if_pos hc]

/-- C4 witness: a critical keyword wins over simultaneous success, error
and warning keywords. -/
theorem claim_C4_witness :
    (parse_log_status "FATAL issue but SUCCESS and ERROR and WARNING").1
      = LogStatus.CRITICAL :=
  (claim_C4_critical_priority "FATAL issue but SUCCESS and ERROR and WARNING").2
    (by decide) (by decide) (by decide)

/-- C5: text containing a success keyword and a warning keyword but no
critical or error keyword (case-insensitively) is classified `SUCCESS`
with `has_warnings = true` — warnings never downgrade a success.  The
exceptional `UNKNOWN` cases cannot apply: empty text contains no success
keyword, and text containing the fetch-error marker would contain the
error keyword `ERROR`. -/
theorem claim_C5_success_not_downgraded (text : String)
    (hs : containsKW (upperChars text) SUCCESS_KEYWORDS = true)
    (hw : containsKW (upperChars text) WARNING_KEYWORDS = true)
    (hc : containsKW (upperChars text) CRITICAL_KEYWORDS = false)
    (he : containsKW (upperChars text) ERROR_KEYWORDS = false) :
    parse_log_status text = (LogStatus.SUCCESS, true) := by
  have hne : text.data ≠ [] := by
    intro h
    rw [show upperChars text = [] by simp [upperChars, h]] at hs
    rw [containsKW_nil_success] at hs
    exact absurd hs (by decide)
  have hm : ¬containsSub fetchErrorMarker.data text.data = true := by
    intro h
    rw [errorKW_of_marker h] at he
    exact absurd he (by decide)
  have h0 : ¬(text.data = [] ∨ containsSub fetchErrorMarker.data text.data = true) := by
    rintro (h | h)
    · exact hne h
    · exact hm h
  unfold parse_log_status
  rw [if_neg h0]
  simp only
  rw [if_neg (by rw [hc]; decide), if_neg (by rw [he]; decide), if_pos hs, hw]

/-- C5 witness: concrete text with a success and a warning keyword. -/
theorem claim_C5_witness :
    parse_log_status "run FINISHED with WARN messages" = (LogStatus.SUCCESS, true) :=
  claim_C5_success_not_downgraded "run FINISHED with WARN messages"
    (by decide) (by decide) (by decide) (by decide)

/-- A line whose leading date is lexically well-formed but calendrically
invalid is never added to the accumulator by the date-range filter: the
`except ValueError: pass` arm keeps it out of the dated branch, and the
continuation branch requires the lexical match to fail. -/
theorem filterLoop_badDated_mem {startD endD : SimpleDate} {l : List Char}
    (hbad : badDated l = true) :
    ∀ (lines acc : List (List Char)),
      l ∈ filterLoop startD endD acc lines → l ∈ acc := by
  intro lines
  induction lines with
  | nil =>
    intro acc hmem
    simpa [filterLoop] using hmem
  | cons line rest ih =>
    intro acc hmem
    simp only [filterLoop] at hmem
    cases hld : lexDate line with
    | some v =>
      obtain ⟨y, m, d⟩ := v
      rw [hld] at hmem
      simp only at hmem
      by_cases hv : validDate y m d = true
      · rw [if_pos hv] at hmem
        by_cases hr : (dateKey startD ≤ dateKeyN y m d && dateKeyN y m d ≤ dateKey endD) = true
        · rw [if_pos hr] at hmem
          rcases (List.mem_append.mp (ih _ hmem)) with h | h
          · exact h
          · exfalso
            rw [List.mem_singleton.mp h] at hbad
            rw [show badDated line = false by simp [badDated, hld, hv]] at hbad
            exact absurd hbad (by decide)
        · rw [if_neg hr] at hmem
          exact ih _ hmem
      · rw [if_neg hv] at hmem
        exact ih _ hmem
    | none =>
      rw [hld] at hmem
      simp only at hmem
      by_cases he : acc.isEmpty = true
      · rw [if_pos he] at hmem
        exact ih _ hmem
      · rw [if_neg he] at hmem
        rcases (List.mem_append.mp (ih _ hmem)) with h | h
        · exact h
        · exfalso
          rw [List.mem_singleton.mp h] at hbad
          rw [show badDated line = false by simp [badDated, hld]] at hbad
          exact absurd hbad (by decide)

/-- C3 counterexample: in the date-range filter, the line
`2024-99-99 bad` lexically matches the date prefix but fails semantic
parsing; although the bucket is open (`2024-03-05 ok` was collected, and
the later undated `cont` line IS appended as a continuation), the
invalid-dated line is dropped from the output instead of being appended
to the open bucket. -/
theorem claim_C3_counterexample :
    filterLoop ⟨2024, 3, 4⟩ ⟨2024, 3, 5⟩ []
        ["2024-03-05 ok".data, "2024-99-99 bad".data, "cont".data]
      = ["2024-03-05 ok".data, "cont".data]
    ∧ "2024-99-99 bad".data ∉ filterLoop ⟨2024, 3, 4⟩ ⟨2024, 3, 5⟩ []
        ["2024-03-05 ok".data, "2024-99-99 bad".data, "cont".data] := by
  decide

/-- C3 amended: a log line that lexically matches the date-prefix
pattern but fails semantic date parsing is silently dropped by the
date-range filter — it never appears in the filtered output, neither as
a dated line nor as a continuation line of the open bucket. -/
theorem claim_C3_invalid_date_line_dropped (startD endD : SimpleDate)
    (l : List Char) (hbad : badDated l = true) (lines : List (List Char)) :
    l ∉ filterLoop startD endD [] lines := by
  intro hmem
  simpa using filterLoop_badDated_mem hbad lines [] hmem

/-- C3 witness: the invalid-dated line is absent from a concrete
filtered output. -/
theorem claim_C3_witness :
    "2024-99-99 bad".data ∉ filterLoop ⟨2024, 3, 4⟩ ⟨2024, 3, 5⟩ []
      ["2024-03-04 start".data, "2024-99-99 bad".data, "tail text".data] :=
  claim_C3_invalid_date_line_dropped ⟨2024, 3, 4⟩ ⟨2024, 3, 5⟩
    "2024-99-99 bad".data (by decide)
    ["2024-03-04 start".data, "2024-99-99 bad".data, "tail text".data]

/-- C7: for content whose fetch succeeded (no `SSH_ERROR` marker) and
whose today-bucket holds no valid full timestamp: a valid latest
timestamp in yesterday's bucket yields `PENDING` with a last-run message
referencing that timestamp, and no valid timestamp in either bucket
yields `NO_RECENT_RUN`. -/
theorem claim_C7_pending_and_no_recent_run (todayD : SimpleDate) (content : String)
    (hok : containsSub "SSH_ERROR".data content.data = false)
    (htoday : _get_latest_timestamp_from_log_content
        (todayBucketContent todayD content) (some todayD) = none) :
    (∀ ts : List Char,
      _get_latest_timestamp_from_log_content
          (yesterdayBucketContent todayD content) (some (prevDay todayD)) = some ts →
      resolveRun todayD content
        = ⟨LogStatus.PENDING, "N/A (Last run: " ++ String.mk ts ++ " - Yesterday)", false⟩)
    ∧ (_get_latest_timestamp_from_log_content
          (yesterdayBucketContent todayD content) (some (prevDay todayD)) = none →
      (resolveRun todayD content).status = LogStatus.NO_RECENT_RUN) := by
  constructor
  · intro ts hts
    simp only [resolveRun, hok, Bool.false_eq_true, if_false, htoday, hts]
  · intro hy
    simp only [resolveRun, hok, Bool.false_eq_true, if_false, htoday, hy]

/-- C7 witness: a tail whose only line is yesterday's dated success line
resolves to `PENDING` referencing yesterday's timestamp. -/
theorem claim_C7_witness :
    resolveRun ⟨2024, 3, 5⟩ "2024-03-04 08:00:00 SUCCESS run complete"
      = ⟨LogStatus.PENDING, "N/A (Last run: 2024-03-04 08:00:00 - Yesterday)", false⟩ :=
  (claim_C7_pending_and_no_recent_run ⟨2024, 3, 5⟩
      "2024-03-04 08:00:00 SUCCESS run complete" (by decide) (by decide)).1
    "2024-03-04 08:00:00".data (by decide)

/-- Concrete environment whose session is inactive at summary time. -/
def envInactiveEx : Env :=
  ⟨false, ⟨2024, 3, 5, 8, 30, 0⟩, fun _ => (false, "", ""), fun _ => StatOutcome.errored "x"⟩

/-- Concrete bulletin with one date-templated product. -/
def bulletinEx : BulletinConfig :=
  ⟨"sonelgaz", "sonalgaz", "/logs/s.log", "/bin/bash run.sh",
    [⟨"Product", "/p/\x7byear\x7d\x7bmonth\x7d\x7bday\x7d.pdf"⟩]⟩

/-- C1 counterexample: a batch status request arriving while the session
is inactive (and whose single inline reconnect fails) is answered by the
`before_request` guard with a 503 `SYSTEM_ERROR`, not with an
HTTP-success payload of per-job `SSH_ERROR` records. -/
theorem claim_C1_counterexample :
    handle_api_bulletins true false false envInactiveEx [bulletinEx]
      = ApiResponse.serviceUnavailable
          "Backend SSH client connection is currently inactive. Please check server logs."
          "SYSTEM_ERROR" := by
  decide

/-- C1 amended: a request that arrives with the session inactive either
passes after a successful inline reconnect or is rejected with a 503;
only when the session is (still or newly) inactive at summary time —
after the guard has passed — does every job produce an `SSH_ERROR`
record with all product availabilities `false` and paths still resolved,
inside an HTTP-success batch payload. -/
theorem claim_C1_inactive_session_batch (env : Env)
    (bulletins : List BulletinConfig) (b : BulletinConfig)
    (hin : env.active = false) :
    (handle_api_bulletins true false false env bulletins
      = ApiResponse.serviceUnavailable
          "Backend SSH client connection is currently inactive. Please check server logs."
          "SYSTEM_ERROR")
    ∧ (handle_api_bulletins true true false env bulletins
      = ApiResponse.ok (bulletins.map (get_bulletin_details_summary env)))
    ∧ (get_bulletin_details_summary env b
      = ⟨b.id, b.name, LogStatus.SSH_ERROR, "N/A", false,
          b.product_paths.map (fun p =>
            ⟨p.name, false, _resolve_dynamic_path p.template env.now⟩)⟩) := by
  refine ⟨rfl, rfl, ?_⟩
  simp [get_bulletin_details_summary, hin]

/-- C1 witness: the summary-time `SSH_ERROR` record at a concrete
inactive environment, with the product path still resolved. -/
theorem claim_C1_witness :
    get_bulletin_details_summary envInactiveEx bulletinEx
      = ⟨"sonelgaz", "sonalgaz", LogStatus.SSH_ERROR, "N/A", false,
          [⟨"Product", false, some "/p/20240305.pdf"⟩]⟩ :=
  (claim_C1_inactive_session_batch envInactiveEx [bulletinEx] bulletinEx rfl).2.2

/-- If the template scanner extracts a key list containing a key the
variable table does not resolve, the formatter fails outright — it never
produces a partially substituted result.  Stated with an explicit length
bound to drive strong induction over the scanner's two-character
lookahead. -/
theorem fmtGo_none_of_badKey (vars : String → Option String) :
    ∀ (n : Nat) (cs : List Char), cs.length ≤ n →
      ∀ (mode : Option (List Char)) (keys : List String),
        keysGo mode cs = some keys → (∃ k ∈ keys, vars k = none) →
        fmtGo vars mode cs = none := by
  intro n
  induction n with
  | zero =>
    intro cs hlen mode keys hk hbad
    obtain rfl : cs = [] := List.length_eq_zero.mp (Nat.le_zero.mp hlen)
    cases mode with
    | none =>
      simp only [keysGo, Option.some.injEq] at hk
      subst hk
      simp at hbad
    | some acc => simp [keysGo] at hk
  | succ n ih =>
    intro cs hlen mode keys hk hbad
    rcases cs with _ | ⟨c, _ | ⟨c2, rest2⟩⟩
    · cases mode with
      | none =>
        simp only [keysGo, Option.some.injEq] at hk
        subst hk
        simp at hbad
      | some acc => simp [keysGo] at hk
    · -- singleton [c]
      cases mode with
      | some acc =>
        by_cases hc : c = '\x7d'
        · simp only [keysGo, if_pos hc] at hk
          simp only [fmtGo, if_pos hc]
          rw [Option.map_some'] at hk
          injection hk with hk
          subst hk
          obtain ⟨k, hkmem, hvk⟩ := hbad
          obtain rfl : k = String.mk acc.reverse := List.mem_singleton.mp hkmem
          rw [hvk]
        · simp only [keysGo, if_neg hc] at hk
          exact absurd hk (by simp)
      | none =>
        by_cases hb : c = '\x7b'
        · simp [keysGo, hb] at hk
        · by_cases hc : c = '\x7d'
          · simp [keysGo, hb, hc] at hk
          · simp only [keysGo, if_neg hb, if_neg hc] at hk
            injection hk with hk
            subst hk
            simp at hbad
    · -- c :: c2 :: rest2
      have hlen2 : rest2.length ≤ n := by
        simp only [List.length_cons] at hlen
        omega
      have hlen1 : (c2 :: rest2).length ≤ n := by
        simp only [List.length_cons] at hlen ⊢
        omega
      cases mode with
      | some acc =>
        by_cases hc : c = '\x7d'
        · simp only [keysGo, if_pos hc] at hk
          simp only [fmtGo, if_pos hc]
          obtain ⟨ks, hks, hkeys⟩ := Option.map_eq_some'.mp hk
          subst hkeys
          obtain ⟨k, hkmem, hvk⟩ := hbad
          cases hv : vars (String.mk acc.reverse) with
          | none => rfl
          | some v =>
            rcases List.mem_cons.mp hkmem with rfl | hkmem'
            · rw [hv] at hvk
              exact absurd hvk (by simp)
            · rw [ih (c2 :: rest2) hlen1 none ks hks ⟨k, hkmem', hvk⟩]
              rfl
        · simp only [keysGo, if_neg hc] at hk
          simp only [fmtGo, if_neg hc]
          exact ih (c2 :: rest2) hlen1 _ _ hk hbad
      | none =>
        by_cases hb : c = '\x7b'
        · by_cases hb2 : c2 = '\x7b'
          · simp only [keysGo, if_pos hb, if_pos hb2] at hk
            simp only [fmtGo, if_pos hb, if_pos hb2]
            rw [ih rest2 hlen2 none keys hk hbad]
            rfl
          · simp only [keysGo, if_pos hb, if_neg hb2] at hk
            simp only [fmtGo, if_pos hb, if_neg hb2]
            exact ih (c2 :: rest2) hlen1 _ _ hk hbad
        · by_cases hc : c = '\x7d'
          · by_cases hc2 : c2 = '\x7d'
            · simp only [keysGo, if_neg hb, if_pos hc, if_pos hc2] at hk
              simp only [fmtGo, if_neg hb, if_pos hc, if_pos hc2]
              rw [ih rest2 hlen2 none keys hk hbad]
              rfl
            · simp [keysGo, hb, hc, hc2] at hk
          · simp only [keysGo, if_neg hb, if_neg hc] at hk
            simp only [fmtGo, if_neg hb, if_neg hc]
            rw [ih (c2 :: rest2) hlen1 none keys hk hbad]
            rfl

/-- Two strings with the same character data are equal. -/
theorem str_ext {a b : String} (h : a.data = b.data) : a = b := by
  cases a
  cases b
  exact congrArg String.mk h

/-- String concatenation concatenates the character data. -/
theorem strData_append (a b : String) : (a ++ b).data = a.data ++ b.data := rfl

/-- C6: for every date, path-template resolution substitutes each
recognized placeholder with the corresponding value derived from that
date — proved universally over dates for the spec's example template
(which resolves to exactly `strftime("%Y-%m-%d")` of the date) and for
each of the sixteen recognized placeholder names of the `date_vars`
table — and a template referencing any unrecognized placeholder
resolves to `none` — never to a partially substituted string.  The
resolver is a pure Lean function, so determinism and absence of side
effects hold by construction. -/
theorem claim_C6_resolve_dynamic_path :
    (∀ d : DateTime,
      _resolve_dynamic_path "{year}-{month}-{day}" d
        = some (dateToStr (DateTime.toDate d)))
    ∧ (∀ d : DateTime,
      _resolve_dynamic_path "{year}" d = some (pad4 d.year)
      ∧ _resolve_dynamic_path "{year_short}" d = some (pad2 (d.year % 100))
      ∧ _resolve_dynamic_path "{month}" d = some (pad2 d.month)
      ∧ _resolve_dynamic_path "{day}" d = some (pad2 d.day)
      ∧ _resolve_dynamic_path "{Hour}" d = some (pad2 d.hour)
      ∧ _resolve_dynamic_path "{hour}" d = some (pad2 d.hour)
      ∧ _resolve_dynamic_path "{Minute}" d = some (pad2 d.minute)
      ∧ _resolve_dynamic_path "{minute}" d = some (pad2 d.minute)
      ∧ _resolve_dynamic_path "{Second}" d = some (pad2 d.second)
      ∧ _resolve_dynamic_path "{second}" d = some (pad2 d.second)
      ∧ _resolve_dynamic_path "{DD}" d = some (pad2 d.day)
      ∧ _resolve_dynamic_path "{MM}" d = some (pad2 d.month)
      ∧ _resolve_dynamic_path "{YYYY}" d = some (pad4 d.year)
      ∧ _resolve_dynamic_path "{Day}" d = some (pad2 d.day)
      ∧ _resolve_dynamic_path "{Month}" d = some (pad2 d.month)
      ∧ _resolve_dynamic_path "{Year}" d = some (pad4 d.year))
    ∧ (∀ (template : String) (d : DateTime) (keys : List String),
        templateKeys template = some keys →
        (∃ k ∈ keys, dateVars d k = none) →
        _resolve_dynamic_path template d = none) := by
  refine ⟨?_, ?_, ?_⟩
  · intro d
    rw [show _resolve_dynamic_path "{year}-{month}-{day}" d
        = some (String.mk ((pad4 d.year).data ++
            ('-' :: ((pad2 d.month).data ++
              ('-' :: ((pad2 d.day).data ++ ([] : List Char))))))) from rfl]
    refine congrArg some (str_ext ?_)
    simp [dateToStr, strData_append, DateTime.toDate]
  · intro d
    refine ⟨?_, ?_, ?_, ?_, ?_, ?_, ?_, ?_, ?_, ?_, ?_, ?_, ?_, ?_, ?_, ?_⟩
    · rw [show _resolve_dynamic_path "{year}" d
          = some (String.mk ((pad4 d.year).data ++ ([] : List Char))) from rfl,
        List.append_nil]
    · rw [show _resolve_dynamic_path "{year_short}" d
          = some (String.mk ((pad2 (d.year % 100)).data ++ ([] : List Char))) from rfl,
        List.append_nil]
    · rw [show _resolve_dynamic_path "{month}" d
          = some (String.mk ((pad2 d.month).data ++ ([] : List Char))) from rfl,
        List.append_nil]
    · rw [show _resolve_dynamic_path "{day}" d
          = some (String.mk ((pad2 d.day).data ++ ([] : List Char))) from rfl,
        List.append_nil]
    · rw [show _resolve_dynamic_path "{Hour}" d
          = some (String.mk ((pad2 d.hour).data ++ ([] : List Char))) from rfl,
        List.append_nil]
    · rw [show _resolve_dynamic_path "{hour}" d
          = some (String.mk ((pad2 d.hour).data ++ ([] : List Char))) from rfl,
        List.append_nil]
    · rw [show _resolve_dynamic_path "{Minute}" d
          = some (String.mk ((pad2 d.minute).data ++ ([] : List Char))) from rfl,
        List.append_nil]
    · rw [show _resolve_dynamic_path "{minute}" d
          = some (String.mk ((pad2 d.minute).data ++ ([] : List Char))) from rfl,
        List.append_nil]
    · rw [show _resolve_dynamic_path "{Second}" d
          = some (String.mk ((pad2 d.second).data ++ ([] : List Char))) from rfl,
        List.append_nil]
    · rw [show _resolve_dynamic_path "{second}" d
          = some (String.mk ((pad2 d.second).data ++ ([] : List Char))) from rfl,
        List.append_nil]
    · rw [show _resolve_dynamic_path "{DD}" d
          = some (String.mk ((pad2 d.day).data ++ ([] : List Char))) from rfl,
        List.append_nil]
    · rw [show _resolve_dynamic_path "{MM}" d
          = some (String.mk ((pad2 d.month).data ++ ([] : List Char))) from rfl,
        List.append_nil]
    · rw [show _resolve_dynamic_path "{YYYY}" d
          = some (String.mk ((pad4 d.year).data ++ ([] : List Char))) from rfl,
        List.append_nil]
    · rw [show _resolve_dynamic_path "{Day}" d
          = some (String.mk ((pad2 d.day).data ++ ([] : List Char))) from rfl,
        List.append_nil]
    · rw [show _resolve_dynamic_path "{Month}" d
          = some (String.mk ((pad2 d.month).data ++ ([] : List Char))) from rfl,
        List.append_nil]
    · rw [show _resolve_dynamic_path "{Year}" d
          = some (String.mk ((pad4 d.year).data ++ ([] : List Char))) from rfl,
        List.append_nil]
  · intro template d keys hk hbad
    unfold templateKeys at hk
    unfold _resolve_dynamic_path
    rw [fmtGo_none_of_badKey (dateVars d) template.data.length template.data
        le_rfl none keys hk hbad]
    rfl

/-- C6 witness: the unknown placeholder of the spec's example resolves
to an absent result. -/
theorem claim_C6_witness :
    _resolve_dynamic_path "prefix-\x7bbogus\x7d.txt" ⟨2024, 3, 5, 8, 30, 0⟩ = none :=
  claim_C6_resolve_dynamic_path.2.2 "prefix-\x7bbogus\x7d.txt" ⟨2024, 3, 5, 8, 30, 0⟩
    ["bogus"] (by decide) ⟨"bogus", by decide, by decide⟩

end BulletinMonitor
